import Mathlib

set_option linter.unnecessarySeqFocus false
set_option linter.unnecessarySimpa false

/-!
Verification of the Strava-to-Notion triathlon sync engine.

This file gives a shallow embedding of the repository's core logic
(`src/sync.py`, `src/notion.py`, `src/strava.py`, `src/config_loader.py`)
and proves properties about it.

Modelling conventions:
* Python dict values occurring in activities are modelled by `PyVal`
  (numbers as exact rationals, strings, booleans); a key that is absent or
  null in the JSON is modelled as a missing key (lookup returns `none`).
* Notion page properties are modelled by `Props`, an association list with
  Python-dict semantics (assignment replaces the value of an existing key,
  keeps insertion order otherwise); `PropValue` mirrors the property payload
  shapes the code reads and writes.
* Python floats are modelled as exact rationals; `round` uses round-half-to-even
  like Python's `round`; `int(...)` truncates toward zero.
* ISO-8601 date strings are parsed to day numbers with the standard civil
  calendar formula, mirroring `datetime.fromisoformat` on `YYYY-MM-DD`
  strings (a malformed non-empty date makes the parse fail, which models the
  `ValueError` the source raises there).
* Network calls become operations on a `Store` value; every read and write
  the engine issues is also recorded in the store's `log`, so statements
  about "no calls are made" or about the order of writes are statements
  about the log.
-/

/-- Python values as they occur in a Strava activity dictionary. -/
inductive PyVal where
  | num (q : ℚ)
  | str (s : String)
  | bool (b : Bool)
deriving DecidableEq

/-- A Strava activity: a JSON dictionary. -/
abbrev Activity := List (String × PyVal)

/-- Dictionary read, `activity.get(key)`: `none` models an absent (or null) key. -/
def aget (a : Activity) (k : String) : Option PyVal := a.lookup k

/-- Python truthiness of a value. -/
def truthyV : PyVal → Bool
  | .num q => q ≠ 0
  | .str s => s ≠ ""
  | .bool b => b

/-- Python truthiness of `activity.get(key)` (missing key is falsy). -/
def truthy : Option PyVal → Bool
  | none => false
  | some v => truthyV v

/-- Python `str(value)`. Only the string case is exercised by the engine;
numbers and booleans get a canonical rendering. -/
def pyStr : PyVal → String
  | .str s => s
  | .num q => toString q
  | .bool b => if b then "True" else "False"

/-- Read a value as a string with `""` default, `activity.get(key, "")`. -/
def getStrField : Option PyVal → String
  | some v => pyStr v
  | none => ""

/-- Numeric view of a Python value (booleans coerce to 0/1 as in Python
arithmetic); a string has no numeric view. -/
def numOf : Option PyVal → Option ℚ
  | some (.num q) => some q
  | some (.bool b) => some (if b then 1 else 0)
  | _ => none

/-- Python `int(q)`: truncation toward zero. -/
def pyInt (q : ℚ) : ℤ := if q < 0 then -⌊-q⌋ else ⌊q⌋

/-- Python `round(q, n)`: round half to even at `n` decimal places. -/
def pyRound (q : ℚ) (n : ℕ) : ℚ :=
  let m : ℚ := q * (10 : ℚ) ^ n
  let f : ℤ := ⌊m⌋
  let r : ℚ := m - f
  let k : ℤ :=
    if r < 1/2 then f
    else if 1/2 < r then f + 1
    else if f % 2 = 0 then f else f + 1
  (k : ℚ) / (10 : ℚ) ^ n

/-- Zero-padded two-digit rendering, Python's `f"{n:02d}"`. -/
def pad2 (n : ℤ) : String :=
  if 0 ≤ n ∧ n < 10 then "0" ++ toString n else toString n

/-- Format a pace given in minutes as `M:SS`, as the source does with
`int(pace)` and `int((pace - minutes) * 60)`. -/
def formatPace (pace : ℚ) : String :=
  let m : ℤ := pyInt pace
  let s : ℤ := pyInt ((pace - m) * 60)
  toString m ++ ":" ++ pad2 s

/-- Gregorian leap year. -/
def isLeapYear (y : ℕ) : Bool := (y % 4 = 0 && y % 100 ≠ 0) || y % 400 = 0

/-- Days in a month of the Gregorian calendar. -/
def daysInMonth (y m : ℕ) : ℕ :=
  if m = 2 then (if isLeapYear y then 29 else 28)
  else if m = 4 ∨ m = 6 ∨ m = 9 ∨ m = 11 then 30
  else 31

/-- Day number of a civil date (days since 1970-01-01, standard formula). -/
def daysFromCivil (y m d : ℕ) : ℤ :=
  let y' : ℤ := (y : ℤ) - (if m ≤ 2 then 1 else 0)
  let era : ℤ := y' / 400
  let yoe : ℤ := y' - era * 400
  let mp : ℤ := ((m : ℤ) + 9) % 12
  let doy : ℤ := (153 * mp + 2) / 5 + (d : ℤ) - 1
  let doe : ℤ := yoe * 365 + yoe / 4 - yoe / 100 + doy
  era * 146097 + doe - 719468

/-- Split a character list at a separator character (structural recursion,
same grouping as Python's `str.split` with a one-character separator). -/
def splitChar (c : Char) : List Char → List (List Char)
  | [] => [[]]
  | x :: xs =>
    match splitChar c xs with
    | [] => [[]]
    | g :: gs => if x = c then [] :: g :: gs else (x :: g) :: gs

/-- Python `s.split(c)` for a one-character separator. -/
def pySplit (s : String) (c : Char) : List String :=
  (splitChar c s.toList).map (fun l => String.mk l)

/-- Digits-only string to a natural number (what `int(...)` accepts inside
`fromisoformat`'s fields). -/
def pyToNat? (s : String) : Option ℕ :=
  if s.toList ≠ [] ∧ s.toList.all (fun c => c.isDigit) then
    some (s.toList.foldl (fun n c => n * 10 + (c.toNat - Char.toNat '0')) 0)
  else none

/-- Python `s.lower()`. -/
def pyLower (s : String) : String := String.mk (s.toList.map Char.toLower)

/-- Parse a `YYYY-MM-DD` string to its day number; `none` models the
`ValueError` that `datetime.fromisoformat` raises on anything else. -/
def parseISODay (s : String) : Option ℤ :=
  match pySplit s '-' with
  | [ys, ms, ds] =>
    if ys.length = 4 ∧ ms.length = 2 ∧ ds.length = 2 then
      match pyToNat? ys, pyToNat? ms, pyToNat? ds with
      | some y, some m, some d =>
        if 1 ≤ y ∧ 1 ≤ m ∧ m ≤ 12 ∧ 1 ≤ d ∧ d ≤ daysInMonth y m then
          some (daysFromCivil y m d)
        else none
      | _, _, _ => none
    else none
  | _ => none

/-- The source's date normalisation: `date.split("T")[0]` then parse. -/
def parseDay (s : String) : Option ℤ := parseISODay ((pySplit s 'T').headD s)

/-- A Notion property payload, as read and written by the engine. -/
inductive PropValue where
  | title (v : PyVal)
  | date (s : String)
  | number (v : PyVal)
  | richText (s : String)
  | select (name : Option String)
  | relation (ids : List ℕ)
  | checkbox (b : Bool)
deriving DecidableEq

/-- A Notion properties dictionary. -/
abbrev Props := List (String × PropValue)

/-- Python dict assignment `props[k] = v`: replace in place if the key is
present, append otherwise. -/
def insertProp : Props → String → PropValue → Props
  | [], k, v => [(k, v)]
  | (k', v') :: ps, k, v =>
    if k' = k then (k, v) :: ps else (k', v') :: insertProp ps k v

/-- Run a sequence of dict assignments, in order. -/
def buildProps (ps : Props) (l : List (String × PropValue)) : Props :=
  l.foldl (fun acc kv => insertProp acc kv.1 kv.2) ps

theorem lookup_cons {β : Type} (k' k : String) (v : β) (ps : List (String × β)) :
    ((k, v) :: ps).lookup k' = if k' = k then some v else ps.lookup k' := by
  simp only [List.lookup]
  by_cases h : k' = k
  · simp [h]
  · have hb : (k' == k) = false := by
      simp [h]
    simp [hb, h]

theorem lookup_insertProp (ps : Props) (k : String) (v : PropValue) (k' : String) :
    (insertProp ps k v).lookup k' = if k' = k then some v else ps.lookup k' := by
  induction ps with
  | nil => exact lookup_cons k' k v []
  | cons hd tl ih =>
    obtain ⟨k₀, v₀⟩ := hd
    simp only [insertProp]
    by_cases h1 : k₀ = k
    · subst h1
      rw [if_pos rfl, lookup_cons, lookup_cons]
      by_cases h : k' = k₀ <;> simp [h]
    · rw [if_neg h1, lookup_cons, lookup_cons, ih]
      by_cases h2 : k' = k₀
      · subst h2
        simp [h1]
      · simp [h2]

@[simp] theorem buildProps_nil (ps : Props) : buildProps ps [] = ps := rfl

@[simp] theorem buildProps_cons (ps : Props) (k : String) (v : PropValue)
    (l : List (String × PropValue)) :
    buildProps ps ((k, v) :: l) = buildProps (insertProp ps k v) l := rfl

theorem buildProps_append (ps : Props) (l₁ l₂ : List (String × PropValue)) :
    buildProps ps (l₁ ++ l₂) = buildProps (buildProps ps l₁) l₂ := by
  simp [buildProps, List.foldl_append]

/-- Assignments to other keys do not change a key's lookup. -/
theorem lookup_buildProps_of_ne (ps : Props) (l : List (String × PropValue))
    (k : String) (h : ∀ kv ∈ l, kv.1 ≠ k) :
    (buildProps ps l).lookup k = ps.lookup k := by
  induction l generalizing ps with
  | nil => rfl
  | cons hd tl ih =>
    have hhd : hd.1 ≠ k := h hd (List.mem_cons_self _ _)
    have : buildProps ps (hd :: tl) = buildProps (insertProp ps hd.1 hd.2) tl := rfl
    rw [this, ih _ (fun kv hkv => h kv (List.mem_cons_of_mem _ hkv)),
      lookup_insertProp, if_neg (fun hh : k = hd.1 => hhd hh.symm)]

/-- The engine's configuration, as produced by `ConfigLoader`'s getters.
`commonFields` and the per-sport tables model the already-filtered result of
`get_common_fields` / `get_sport_fields` (the loader drops entries whose
value is false or null, so only real field-name mappings remain).
`sportTables` is keyed by the raw config key, e.g. `"run_fields"`. -/
structure Config where
  commonFields : List (String × String)
  sportTables : List (String × List (String × String))
  sportIcons : List (String × String)
  distanceDivisor : ℚ
  timeDivisor : ℚ
  includePaceSuffix : Bool
deriving DecidableEq

/-- `ConfigLoader.get_common_fields`. -/
def get_common_fields (cfg : Config) : List (String × String) := cfg.commonFields

/-- `ConfigLoader.get_sport_fields`: looks up the `{sport.lower()}_fields`
table, empty when the table is missing. -/
def get_sport_fields (cfg : Config) (sportType : String) : List (String × String) :=
  ((cfg.sportTables).lookup (pyLower sportType ++ "_fields")).getD []

/-- `ConfigLoader.get_sport_icon`. -/
def get_sport_icon (cfg : Config) (sportType : String) : Option String :=
  (cfg.sportIcons).lookup sportType

/-- Modelled from the spec: `StravaClient.get_notion_sport_type` is called by
`sync_activities` (src/sync.py line 78) but is not defined anywhere under
`src/`; the spec's Sport Category Mapping (source "Ride" maps to display
"Bike", other categories unchanged — also stated by the source comment at
src/sync.py line 77) is the authority for its behaviour. -/
def get_notion_sport_type (stravaType : String) : String :=
  if stravaType = "Ride" then "Bike" else stravaType

/-- Fallback of the source expression `activity.get("type", "Unknown")`. -/
def typeDefault (a : Activity) : String :=
  match aget a "type" with
  | some v => pyStr v
  | none => "Unknown"

/-- The source expression
`activity.get("sport_type") or activity.get("type", "Unknown")`
(Python `or` falls through on falsy values such as the empty string). -/
def effStravaType (a : Activity) : String :=
  match aget a "sport_type" with
  | some v => if truthyV v then pyStr v else typeDefault a
  | none => typeDefault a

/-- A Notion page. -/
structure Page where
  id : ℕ
  props : Props
deriving DecidableEq

/-- The filter expressions the engine sends with its queries. -/
inductive QueryFilter where
  | stravaIdEq (v : Option PyVal)
  | sportDateEq (sport : String) (dateOnly : String)
  | sportDateRange (sport : String) (lo hi : ℤ)
  | titleEq (name : String)
deriving DecidableEq

/-- One Notion API call issued by the engine. -/
inductive Op where
  | query (db : String) (f : QueryFilter)
  | create (db : String) (props : Props) (icon : Option String)
  | update (pageId : ℕ) (props : Props)
deriving DecidableEq

/-- The destination side: the three Notion databases (`sportsDb` is `none`
when `NOTION_SPORTS_DB_ID` is unconfigured), the process-lifetime sport-page
cache, and a log of every API call issued so far. -/
structure Store where
  activities : List Page
  planned : List Page
  sportsDb : Option (List Page)
  sportCache : List (String × ℕ)
  log : List Op
deriving DecidableEq

/-- `NotionClient.find_sport_page_id`: cache first, then a title-equality
query against the Sports database; a hit is cached, a miss is not. -/
def find_sport_page_id (st : Store) (sportName : String) : Option ℕ × Store :=
  match (st.sportCache).lookup sportName with
  | some pid => (some pid, st)
  | none =>
    match st.sportsDb with
    | none => (none, st)
    | some db =>
      let st1 := { st with log := st.log ++ [Op.query "sports" (QueryFilter.titleEq sportName)] }
      match (db.filter (fun p =>
          match (p.props).lookup "Name" with
          | some (.title v) => pyStr v == sportName
          | _ => false)).head? with
      | some p => (some p.id, { st1 with sportCache := st1.sportCache ++ [(sportName, p.id)] })
      | none => (none, st1)

/-- Kind of a simple common field (src/notion.py lines 239-276). -/
inductive SimpleFieldType where
  | rich | num | chk | sel
deriving DecidableEq

/-- The `simple_fields` table of `activity_to_properties`, in source order. -/
def simpleFieldDefs : List (String × SimpleFieldType) :=
  [("description", .rich), ("type", .sel), ("timezone", .rich),
   ("external_id", .rich), ("device_name", .rich), ("location_city", .rich),
   ("location_state", .rich), ("location_country", .rich),
   ("upload_id", .num), ("elapsed_time", .num), ("utc_offset", .num),
   ("elev_high", .num), ("elev_low", .num), ("max_speed", .num),
   ("average_temp", .num), ("kudos_count", .num), ("comment_count", .num),
   ("athlete_count", .num), ("achievement_count", .num), ("pr_count", .num),
   ("photo_count", .num), ("total_photo_count", .num),
   ("weighted_average_watts", .num), ("kilojoules", .num),
   ("suffer_score", .num), ("workout_type", .num),
   ("trainer", .chk), ("commute", .chk), ("manual", .chk),
   ("private", .chk), ("flagged", .chk), ("device_watts", .chk),
   ("has_heartrate", .chk)]

/-- Value conversion of the simple-field loop. For number fields the source
runs `round(float(value), 2)` only when the value is an int/float (Python
booleans are ints); a string value is stored verbatim. -/
def convertSimple : SimpleFieldType → PyVal → PropValue
  | .rich, v => .richText (pyStr v)
  | .num, .num q => .number (.num (pyRound q 2))
  | .num, .bool b => .number (.num (pyRound (if b then 1 else 0) 2))
  | .num, .str s => .number (.str s)
  | .chk, v => .checkbox (truthyV v)
  | .sel, v => .select (some (pyStr v))

/-- One iteration of the simple-field loop: emits a property when the field
is mapped in the config and present (not None) on the activity. -/
def simpleFieldInstr (cfg : Config) (a : Activity) (fd : String × SimpleFieldType) :
    Option (String × PropValue) :=
  match (get_common_fields cfg).lookup fd.1 with
  | some nf =>
    match aget a fd.1 with
    | some v => some (nf, convertSimple fd.2 v)
    | none => none
  | none => none

/-- All assignments made by the simple-field loop, in order. -/
def simpleFieldInstrs (cfg : Config) (a : Activity) : List (String × PropValue) :=
  simpleFieldDefs.filterMap (simpleFieldInstr cfg a)

/-- Emission pattern shared by the numeric sport-specific fields: the field
must be mapped in the sport table and truthy on the activity. A mapped but
non-numeric value would raise a `TypeError` in the source's arithmetic; no
Strava field of this kind is non-numeric, and it is modelled as no emission. -/
def numEmit (tbl : List (String × String)) (a : Activity) (key : String)
    (f : ℚ → PropValue) : List (String × PropValue) :=
  match tbl.lookup key with
  | some nf =>
    if truthy (aget a key) then
      match numOf (aget a key) with
      | some q => [(nf, f q)]
      | none => []
    else []
  | none => []

/-- `NotionClient._get_sport_specific_properties` (src/notion.py 309-448):
the assignments it makes, in source order. -/
def sport_specific_properties (cfg : Config) (a : Activity)
    (displayType stravaType : String) : List (String × PropValue) :=
  let tbl := get_sport_fields cfg displayType
  -- Distance
  numEmit tbl a "distance" (fun q => .number (.num (pyRound (q / cfg.distanceDivisor) 2)))
  -- Moving time / Duration
  ++ numEmit tbl a "moving_time" (fun q => .number (.num (pyRound (q / cfg.timeDivisor) 1)))
  ++ (if stravaType = "Run" then
        -- Average pace as number (min/km)
        (match tbl.lookup "average_pace_number" with
         | some nf =>
           if truthy (aget a "distance") && truthy (aget a "moving_time") then
             match numOf (aget a "distance"), numOf (aget a "moving_time") with
             | some d, some t =>
               if 0 < d then [(nf, .number (.num (pyRound ((t / 60) / (d / 1000)) 2)))] else []
             | _, _ => []
           else []
         | none => [])
        -- Pace as formatted text
        ++ (match tbl.lookup "pace_text" with
            | some nf =>
              if truthy (aget a "distance") && truthy (aget a "moving_time") then
                match numOf (aget a "distance"), numOf (aget a "moving_time") with
                | some d, some t =>
                  if 0 < d then
                    [(nf, .richText
                        (formatPace ((t / 60) / (d / 1000))
                          ++ (if cfg.includePaceSuffix then " /km" else "")))]
                  else []
                | _, _ => []
              else []
            | none => [])
        -- Average cadence (steps per minute: doubled)
        ++ numEmit tbl a "average_cadence" (fun q => .number (.num (pyRound (q * 2) 0)))
      else if stravaType = "Ride" then
        -- Average speed (km/h)
        (match tbl.lookup "average_speed" with
         | some nf =>
           if truthy (aget a "distance") && truthy (aget a "moving_time") then
             match numOf (aget a "distance"), numOf (aget a "moving_time") with
             | some d, some t =>
               if 0 < t then [(nf, .number (.num (pyRound ((d / 1000) / (t / 3600)) 2)))] else []
             | _, _ => []
           else []
         | none => [])
        ++ numEmit tbl a "average_watts" (fun q => .number (.num (pyRound q 0)))
        ++ numEmit tbl a "max_watts" (fun q => .number (.num (pyRound q 0)))
        ++ numEmit tbl a "average_cadence" (fun q => .number (.num (pyRound q 0)))
      else if stravaType = "Swim" then
        -- Swim pace as formatted text (min/100m), no suffix
        (match tbl.lookup "swim_pace_text" with
         | some nf =>
           if truthy (aget a "distance") && truthy (aget a "moving_time") then
             match numOf (aget a "distance"), numOf (aget a "moving_time") with
             | some d, some t =>
               if 0 < d then [(nf, .richText (formatPace ((t / 60) / (d / 100))))] else []
             | _, _ => []
           else []
         | none => [])
        ++ numEmit tbl a "average_cadence" (fun q => .number (.num (pyRound q 0)))
      else [])
  ++ numEmit tbl a "total_elevation_gain" (fun q => .number (.num (pyRound q 0)))
  ++ numEmit tbl a "average_heartrate" (fun q => .number (.num (pyRound q 0)))
  ++ numEmit tbl a "max_heartrate" (fun q => .number (.num (pyRound q 0)))
  ++ numEmit tbl a "calories" (fun q => .number (.num (pyRound q 0)))

/-- `NotionClient.activity_to_properties` (src/notion.py 154-307): returns
the properties dictionary, the emoji icon, and the store (the store changes
only when the sport-relation branch queries the Sports database). -/
def activity_to_properties (cfg : Config) (st : Store) (a : Activity)
    (notionSportType : Option String) : Props × String × Store :=
  let stravaType := effStravaType a
  let displayType :=
    match notionSportType with
    | some s => if s = "" then stravaType else s
    | none => stravaType
  let icon := (get_sport_icon cfg displayType).getD "🏃"
  let common := get_common_fields cfg
  let titleInstr :=
    match common.lookup "name" with
    | some nf => [(nf, PropValue.title ((aget a "name").getD (.str "Untitled Activity")))]
    | none => []
  let dateInstr :=
    match common.lookup "start_date" with
    | some nf =>
      if truthy (aget a "start_date") then
        [(nf, PropValue.date (getStrField (aget a "start_date")))]
      else []
    | none => []
  let idInstr :=
    match common.lookup "id" with
    | some nf =>
      if truthy (aget a "id") then
        match aget a "id" with
        | some v => [(nf, PropValue.number v)]
        | none => []
      else []
    | none => []
  let relPair :=
    match common.lookup "sport_type_relation" with
    | some nf =>
      match st.sportsDb with
      | none => (([] : List (String × PropValue)), st)
      | some _ =>
        match find_sport_page_id st displayType with
        | (some pid, st') => ([(nf, PropValue.relation [pid])], st')
        | (none, st') => (([] : List (String × PropValue)), st')
    | none => (([] : List (String × PropValue)), st)
  let selInstr :=
    match common.lookup "sport_type_select" with
    | some nf => [(nf, PropValue.select (some displayType))]
    | none => []
  let instrs := titleInstr ++ dateInstr ++ idInstr ++ relPair.1 ++ selInstr
    ++ simpleFieldInstrs cfg a
    ++ sport_specific_properties cfg a displayType stravaType
  (buildProps [] instrs, icon, relPair.2)

/-- Date start string of a planned workout page, the source read
`properties.get("Date", {}).get("date", {}).get("start", "")` (a missing or
differently-typed property yields `""`). -/
def dateStartStr (w : Page) : String :=
  match (w.props).lookup "Date" with
  | some (.date s) => s
  | _ => ""

/-- Availability test of `_filter_available_planned_workouts`
(src/notion.py 795-822): not marked "Done" and no linked entries. -/
def isAvailablePage (w : Page) : Bool :=
  (match (w.props).lookup "Selection status" with
   | some (.select s) => !(s == some "Done")
   | _ => true)
  && (match (w.props).lookup "Training Log Entries" with
      | some (.relation l) => l.isEmpty
      | _ => true)

/-- `NotionClient._filter_available_planned_workouts`. -/
def _filter_available_planned_workouts (workouts : List Page) : List Page :=
  workouts.filter isAvailablePage

/-- The matcher's `get_date_diff` (src/notion.py 779-785): `.ok none` models
`float("inf")` for a missing/empty date, `.error ()` models the exception
`datetime.fromisoformat` raises on a malformed non-empty date string. -/
def get_date_diff (activityDate : ℤ) (w : Page) : Except Unit (Option ℕ) :=
  let s := dateStartStr w
  if s = "" then .ok none
  else
    match parseDay s with
    | some d => .ok (some (d - activityDate).natAbs)
    | none => .error ()

/-- Whether `get_date_diff` evaluates without raising. -/
def diffOk (activityDate : ℤ) (w : Page) : Bool :=
  match get_date_diff activityDate w with
  | .ok _ => true
  | .error _ => false

/-- The day difference when defined (`none` is infinity). -/
def diffOr (activityDate : ℤ) (w : Page) : Option ℕ :=
  match get_date_diff activityDate w with
  | .ok k => k
  | .error _ => none

/-- Strict comparison with `none` as `float("inf")`. -/
def infLt : Option ℕ → Option ℕ → Bool
  | some x, some y => x < y
  | some _, none => true
  | none, _ => false

/-- The folding step of Python's `min(..., key=...)`: keep the earlier
element unless the new one is strictly smaller. -/
def pyMinStep (key : Page → Option ℕ) (b y : Page) : Page :=
  if infLt (key y) (key b) then y else b

/-- Python's `min(l, key=key)` on a non-empty list: the first element whose
key is minimal. -/
def pyMinBy (key : Page → Option ℕ) : List Page → Option Page
  | [] => none
  | x :: xs => some (xs.foldl (pyMinStep key) x)

/-- The matcher's selection logic (src/notion.py 731-793) as a function of
the two query results: first available exact-date candidate, else the
available window candidate closest by date (an undefined date diff on any
window candidate raises). -/
def find_planned_core (exactResults windowResults : List Page)
    (activityDate : ℤ) : Except Unit (Option Page) :=
  if (_filter_available_planned_workouts exactResults).isEmpty then
    if (_filter_available_planned_workouts windowResults).isEmpty then .ok none
    else if (_filter_available_planned_workouts windowResults).all
        (fun w => diffOk activityDate w) then
      .ok (pyMinBy (diffOr activityDate) (_filter_available_planned_workouts windowResults))
    else .error ()
  else .ok (_filter_available_planned_workouts exactResults).head?

/-- Sport select of a planned page, used by the store-side query model. -/
def pageSportSelect (w : Page) : Option String :=
  match (w.props).lookup "Sport relation" with
  | some (.select s) => s
  | _ => none

/-- Date day of a planned page as the Notion query compares it (an empty or
malformed date satisfies no date condition). -/
def pageDateDay (w : Page) : Option ℤ := parseDay (dateStartStr w)

/-- Notion-side semantics of the exact-date query filter. -/
def query_planned_exact (planned : List Page) (sport : String) (day : ℤ) : List Page :=
  planned.filter (fun w => pageSportSelect w == some sport && pageDateDay w == some day)

/-- Notion-side semantics of the date-window query filter (inclusive). -/
def query_planned_range (planned : List Page) (sport : String) (lo hi : ℤ) : List Page :=
  planned.filter (fun w =>
    pageSportSelect w == some sport &&
    (match pageDateDay w with
     | some d => decide (lo ≤ d) && decide (d ≤ hi)
     | none => false))

/-- `NotionClient.find_planned_activity` (src/notion.py 688-793) over a
planned database: normalises the activity date (raising on a malformed one),
queries exact then window, and applies the core selection. -/
def find_planned_activity (planned : List Page) (sport : String)
    (dateStr : String) (maxDaysDiff : ℤ) : Except Unit (Option Page) :=
  let dateOnly := (pySplit dateStr 'T').headD dateStr
  match parseISODay dateOnly with
  | none => .error ()
  | some ad =>
    find_planned_core (query_planned_exact planned sport ad)
      (query_planned_range planned sport (ad - maxDaysDiff) (ad + maxDaysDiff)) ad

/-- The orchestrator's matcher call (src/sync.py lines 74-78 and 105-106):
category resolved through the Ride-to-Bike mapping, date taken from
`activity.get("start_date", "")`, default tolerance 3 days. -/
def per_activity_planned_lookup (planned : List Page) (a : Activity) :
    Except Unit (Option Page) :=
  find_planned_activity planned (get_notion_sport_type (effStravaType a))
    (getStrField (aget a "start_date")) 3

/-- Properties payload of `NotionClient.link_activity_to_planned`
(src/notion.py 824-847): writes the activity reference into the planned
record's linked-entries relation. -/
def link_activity_to_planned_props (activityPageId : ℕ) : Props :=
  [("Training Log Entries", PropValue.relation [activityPageId])]

/-- Properties payload of `NotionClient.mark_planned_as_done`
(src/notion.py 874-893). -/
def mark_planned_as_done_props : Props :=
  [("Selection status", PropValue.select (some "Done"))]

/-- Properties payload of `NotionClient.link_planned_to_activity`
(src/notion.py 849-872). The sync flow never calls this function. -/
def link_planned_to_activity_props (plannedPageId : ℕ) : Props :=
  [("Linked Planned Workout", PropValue.relation [plannedPageId])]

/-- Apply a Notion `update_page` patch to one page (PATCH merges the sent
properties into the page). -/
def applyPatch (p : Page) (pid : ℕ) (props : Props) : Page :=
  if p.id = pid then { p with props := buildProps p.props props } else p

/-- `NotionClient.update_page`: patch whichever page has the id, log the call. -/
def update_page (st : Store) (pid : ℕ) (props : Props) : Store :=
  { st with
    activities := st.activities.map (fun p => applyPatch p pid props),
    planned := st.planned.map (fun p => applyPatch p pid props),
    log := st.log ++ [Op.update pid props] }

/-- The link block of the orchestrator (src/sync.py 108-118): on a matched
planned workout it calls `link_activity_to_planned(created, planned)` and
then `mark_planned_as_done(planned)` — both are updates of the planned page. -/
def sync_link_block (st : Store) (createdPageId plannedPageId : ℕ) : Store :=
  let st1 := update_page st plannedPageId (link_activity_to_planned_props createdPageId)
  update_page st1 plannedPageId mark_planned_as_done_props

/-- The orchestrator's counters. The returned dictionary has exactly the
keys "created", "updated", "skipped" and "errors" (src/sync.py 61-66). -/
structure Stats where
  created : ℕ
  updated : ℕ
  skipped : ℕ
  errors : ℕ
deriving DecidableEq

/-- `NotionClient.find_activity_by_strava_id` (src/notion.py 668-686):
number-equality query on the "Strava ID" property, first result or none. -/
def find_activity_by_strava_id (activities : List Page) (sid : Option PyVal) :
    Option Page :=
  (activities.filter (fun p =>
    match sid, (p.props).lookup "Strava ID" with
    | some v, some (.number v') => v == v'
    | _, _ => false)).head?

/-- One iteration of the orchestrator loop (src/sync.py 69-124), including
its per-activity exception handling. After the duplicate-guard miss the
source computes `properties = notion_client.activity_to_properties(...)`,
which returns the `(properties, emoji_icon)` TUPLE, and passes that tuple to
`create_page`; `create_page` fails on `properties.keys()` (a tuple has no
`keys`) before issuing any request, so the loop's `except` branch counts the
activity as an error: no page is created and the matcher and linker are
never reached. -/
def process_activity (cfg : Config) (dryRun : Bool) (s : Store × Stats)
    (a : Activity) : Store × Stats :=
  let st := s.1
  let stats := s.2
  let stravaType := effStravaType a
  let notionType := get_notion_sport_type stravaType
  if dryRun then (st, { stats with skipped := stats.skipped + 1 })
  else
    let sid := aget a "id"
    let st1 := { st with log := st.log ++ [Op.query "activities" (QueryFilter.stravaIdEq sid)] }
    match find_activity_by_strava_id st.activities sid with
    | some _ => (st1, { stats with skipped := stats.skipped + 1 })
    | none =>
      let r := activity_to_properties cfg st1 a (some notionType)
      (r.2.2, { stats with errors := stats.errors + 1 })

/-- `sync_activities` (src/sync.py 31-126) over an already fetched and
category-filtered batch of activities. -/
def sync_activities (cfg : Config) (dryRun : Bool) (acts : List Activity)
    (st : Store) : Store × Stats :=
  acts.foldl (process_activity cfg dryRun)
    (st, { created := 0, updated := 0, skipped := 0, errors := 0 })

theorem infLt_irrefl (a : Option ℕ) : infLt a a = false := by
  cases a <;> simp [infLt]

theorem infLt_trans {a b c : Option ℕ} (h1 : infLt a b = true)
    (h2 : infLt b c = true) : infLt a c = true := by
  cases a <;> cases b <;> cases c <;> simp_all [infLt] <;> omega

theorem infLt_of_not_lt_of_lt {a b c : Option ℕ} (h1 : infLt b a = false)
    (h2 : infLt b c = true) : infLt a c = true := by
  cases a <;> cases b <;> cases c <;> simp_all [infLt] <;> omega

theorem infLt_of_lt_of_not_lt {a b c : Option ℕ} (h1 : infLt a b = true)
    (h2 : infLt c b = false) : infLt a c = true := by
  cases a <;> cases b <;> cases c <;> simp_all [infLt] <;> omega

theorem foldlMin_mem (key : Page → Option ℕ) (xs : List Page) (x : Page) :
    xs.foldl (pyMinStep key) x ∈ x :: xs := by
  induction xs generalizing x with
  | nil => simp
  | cons y ys ih =>
    have := ih (pyMinStep key x y)
    by_cases h : infLt (key y) (key x) = true
    · simp only [pyMinStep, if_pos h] at this
      rcases List.mem_cons.mp this with h' | h'
      · simp [List.foldl_cons, pyMinStep, h, h']
      · simp [List.foldl_cons, pyMinStep, h]
        right; right; exact h'
    · simp only [pyMinStep, if_neg h] at this
      rcases List.mem_cons.mp this with h' | h'
      · simp [List.foldl_cons, pyMinStep, h, h']
      · simp [List.foldl_cons, pyMinStep, h]
        right; right; exact h'

theorem foldlMin_not_lt (key : Page → Option ℕ) (xs : List Page) (x : Page) :
    ∀ y ∈ x :: xs, infLt (key y) (key (xs.foldl (pyMinStep key) x)) = false := by
  induction xs generalizing x with
  | nil =>
    intro y hy
    rcases List.mem_cons.mp hy with h | h
    · rw [h]
      simpa using infLt_irrefl (key x)
    · cases h
  | cons z zs ih =>
    intro y hy
    rw [List.foldl_cons]
    by_cases h : infLt (key z) (key x) = true
    · have hs : pyMinStep key x z = z := by simp [pyMinStep, h]
      rw [hs]
      have hstep := ih z
      rcases List.mem_cons.mp hy with h' | h'
      · -- y = x: were x below the result, z would be below it too
        rw [h']
        have hz := hstep z (List.mem_cons_self _ _)
        by_contra hcon
        have hx : infLt (key x) (key (zs.foldl (pyMinStep key) z)) = true := by
          revert hcon
          cases hxx : infLt (key x) (key (zs.foldl (pyMinStep key) z)) <;> simp
        exact absurd (infLt_trans h hx) (by simp [hz])
      · exact hstep y h'
    · have hs : pyMinStep key x z = x := by simp [pyMinStep, h]
      rw [hs]
      have hstep := ih x
      rcases List.mem_cons.mp hy with h' | h'
      · rw [h']
        exact hstep x (List.mem_cons_self _ _)
      · rcases List.mem_cons.mp h' with h'' | h''
        · -- y = z with not (z < x): x is below or equal to z
          rw [h'']
          have hx := hstep x (List.mem_cons_self _ _)
          by_contra hcon
          have hz2 : infLt (key z) (key (zs.foldl (pyMinStep key) x)) = true := by
            revert hcon
            cases hxx : infLt (key z) (key (zs.foldl (pyMinStep key) x)) <;> simp
          have hF : infLt (key z) (key x) = false := by
            revert h
            cases infLt (key z) (key x) <;> simp
          exact absurd (infLt_of_not_lt_of_lt hF hz2) (by simp [hx])
        · exact hstep y (List.mem_cons_of_mem _ h'')

theorem foldlMin_first (key : Page → Option ℕ) (xs : List Page) (x : Page) :
    ∃ l1 l2, x :: xs = l1 ++ (xs.foldl (pyMinStep key) x) :: l2
      ∧ ∀ y ∈ l1, infLt (key (xs.foldl (pyMinStep key) x)) (key y) = true := by
  induction xs generalizing x with
  | nil => exact ⟨[], [], by simp, by simp⟩
  | cons z zs ih =>
    rw [List.foldl_cons]
    by_cases h : infLt (key z) (key x) = true
    · have hs : pyMinStep key x z = z := by simp [pyMinStep, h]
      rw [hs]
      obtain ⟨l1, l2, hdec, hstrict⟩ := ih z
      refine ⟨x :: l1, l2, ?_, ?_⟩
      · rw [List.cons_append, ← hdec]
      · intro y hy
        rcases List.mem_cons.mp hy with h' | h'
        · rw [h']
          have hle := foldlMin_not_lt key zs z z (List.mem_cons_self _ _)
          exact infLt_of_not_lt_of_lt hle h
        · exact hstrict y h'
    · have hs : pyMinStep key x z = x := by simp [pyMinStep, h]
      rw [hs]
      obtain ⟨l1, l2, hdec, hstrict⟩ := ih x
      cases l1 with
      | nil =>
        have hx : zs.foldl (pyMinStep key) x = x := by
          have hh := congrArg List.head? hdec
          simpa using hh.symm
        refine ⟨[], z :: zs, by simp [hx], by simp⟩
      | cons w t =>
        have hw : w = x := by
          have hh := congrArg List.head? hdec
          simpa using hh.symm
        have htail : zs = t ++ (zs.foldl (pyMinStep key) x) :: l2 := by
          have hh := congrArg List.tail hdec
          simpa using hh
        have hsx : infLt (key (zs.foldl (pyMinStep key) x)) (key x) = true := by
          have hh := hstrict w (List.mem_cons_self _ _)
          rwa [hw] at hh
        refine ⟨x :: z :: t, l2, ?_, ?_⟩
        · exact congrArg (fun l => x :: z :: l) htail
        · intro y hy
          rcases List.mem_cons.mp hy with h' | h'
          · rw [h']
            exact hsx
          · rcases List.mem_cons.mp h' with h'' | h''
            · rw [h'']
              have hzx : infLt (key z) (key x) = false := by
                revert h
                cases infLt (key z) (key x) <;> simp
              exact infLt_of_lt_of_not_lt hsx hzx
            · have hh := hstrict y ?_
              · exact hh
              · rw [hw]
                exact List.mem_cons_of_mem _ h''

theorem foldlMin_all_none (key : Page → Option ℕ) (xs : List Page) (x : Page)
    (h : ∀ y ∈ xs, key y = none) (hx : key x = none) :
    xs.foldl (pyMinStep key) x = x := by
  induction xs generalizing x with
  | nil => rfl
  | cons z zs ih =>
    have hz : key z = none := h z (List.mem_cons_self _ _)
    have : pyMinStep key x z = x := by
      simp [pyMinStep, hz, hx, infLt]
    rw [List.foldl_cons, this]
    exact ih x (fun y hy => h y (List.mem_cons_of_mem _ hy)) hx

theorem pyMinBy_mem {key : Page → Option ℕ} {l : List Page} {m : Page}
    (h : pyMinBy key l = some m) : m ∈ l := by
  match l, h with
  | x :: xs, h =>
    have hm : xs.foldl (pyMinStep key) x = m := by
      simpa [pyMinBy] using h
    exact hm ▸ foldlMin_mem key xs x

theorem pyMinBy_not_lt {key : Page → Option ℕ} {l : List Page} {m : Page}
    (h : pyMinBy key l = some m) : ∀ y ∈ l, infLt (key y) (key m) = false := by
  match l, h with
  | x :: xs, h =>
    have hm : xs.foldl (pyMinStep key) x = m := by
      simpa [pyMinBy] using h
    exact hm ▸ foldlMin_not_lt key xs x

theorem pyMinBy_first {key : Page → Option ℕ} {l : List Page} {m : Page}
    (h : pyMinBy key l = some m) :
    ∃ l1 l2, l = l1 ++ m :: l2 ∧ ∀ y ∈ l1, infLt (key m) (key y) = true := by
  match l, h with
  | x :: xs, h =>
    have hm : xs.foldl (pyMinStep key) x = m := by
      simpa [pyMinBy] using h
    exact hm ▸ foldlMin_first key xs x

theorem pyMinBy_all_none {key : Page → Option ℕ} {l : List Page}
    (h : ∀ y ∈ l, key y = none) : pyMinBy key l = l.head? := by
  match l with
  | [] => rfl
  | x :: xs =>
    simp only [pyMinBy, List.head?]
    rw [foldlMin_all_none key xs x (fun y hy => h y (List.mem_cons_of_mem _ hy))
      (h x (List.mem_cons_self _ _))]

instance {ε α : Type} [DecidableEq ε] [DecidableEq α] : DecidableEq (Except ε α) :=
  fun a b =>
    match a, b with
    | .ok x, .ok y =>
      if h : x = y then isTrue (by rw [h])
      else isFalse (by intro hh; injection hh; exact h (by assumption))
    | .error x, .error y =>
      if h : x = y then isTrue (by rw [h])
      else isFalse (by intro hh; injection hh; exact h (by assumption))
    | .ok _, .error _ => isFalse (by intro hh; cases hh)
    | .error _, .ok _ => isFalse (by intro hh; cases hh)

theorem head?_mem {α : Type} {l : List α} {a : α} (h : l.head? = some a) : a ∈ l := by
  cases l with
  | nil => cases h
  | cons x xs =>
    have : x = a := by simpa using h
    rw [← this]
    exact List.mem_cons_self _ _

/-- Whether a candidate's day difference is defined and finite. -/
def finiteDiff (activityDate : ℤ) (w : Page) : Bool :=
  match get_date_diff activityDate w with
  | .ok (some _) => true
  | _ => false

/-- Concrete matcher scenario: activity day 2024-05-10. -/
def adMay10 : ℤ := daysFromCivil 2024 5 10

/-- A planned workout on the activity's exact day, already marked Done. -/
def doneP0 : Page :=
  ⟨41, [("Sport relation", PropValue.select (some "Run")),
        ("Date", PropValue.date "2024-05-10"),
        ("Selection status", PropValue.select (some "Done"))]⟩

/-- An unconsumed planned workout two days after the activity. -/
def unP2 : Page :=
  ⟨42, [("Sport relation", PropValue.select (some "Run")),
        ("Date", PropValue.date "2024-05-12")]⟩

/-- C3: the matcher never returns a consumed candidate (status "Done" or a
non-empty linked-entries relation); in particular, a Done candidate at
day-difference 0 is skipped in favor of an unconsumed candidate at
day-difference 2. -/
theorem matcher_never_returns_consumed :
    (∀ (exactResults windowResults : List Page) (activityDate : ℤ) (w : Page),
        find_planned_core exactResults windowResults activityDate = .ok (some w) →
        isAvailablePage w = true)
    ∧ find_planned_core [doneP0] [doneP0, unP2] adMay10 = .ok (some unP2) := by
  constructor
  · intro ex win ad w h
    unfold find_planned_core at h
    by_cases hE : (_filter_available_planned_workouts ex).isEmpty = true
    · rw [if_pos hE] at h
      by_cases hW : (_filter_available_planned_workouts win).isEmpty = true
      · rw [if_pos hW] at h
        simp at h
      · rw [if_neg hW] at h
        by_cases hok : (_filter_available_planned_workouts win).all
            (fun w => diffOk ad w) = true
        · rw [if_pos hok] at h
          injection h with h1
          have hmem := pyMinBy_mem h1
          exact (List.mem_filter.mp hmem).2
        · rw [if_neg hok] at h
          simp at h
    · rw [if_neg hE] at h
      injection h with h1
      have hmem := head?_mem h1
      exact (List.mem_filter.mp hmem).2
  · decide

/-- Witness for C3: the scenario's selected candidate is unconsumed. -/
theorem matcher_never_returns_consumed_witness : isAvailablePage unP2 = true :=
  matcher_never_returns_consumed.1 [doneP0] [doneP0, unP2] adMay10 unP2
    matcher_never_returns_consumed.2

/-- C4: when the exact-date step finds nothing and the window step has
available candidates whose date diffs all evaluate, with at least one finite,
the matcher returns the first candidate of minimal absolute day difference,
and never a dateless one. -/
theorem matcher_selects_closest (exactResults windowResults : List Page)
    (activityDate : ℤ)
    (hE : _filter_available_planned_workouts exactResults = [])
    (hok : (_filter_available_planned_workouts windowResults).all
      (fun w => diffOk activityDate w) = true)
    (hvalid : (_filter_available_planned_workouts windowResults).any
      (fun w => finiteDiff activityDate w) = true) :
    ∃ w, find_planned_core exactResults windowResults activityDate = .ok (some w)
      ∧ w ∈ _filter_available_planned_workouts windowResults
      ∧ (∀ x ∈ _filter_available_planned_workouts windowResults,
          infLt (diffOr activityDate x) (diffOr activityDate w) = false)
      ∧ (∃ l1 l2, _filter_available_planned_workouts windowResults = l1 ++ w :: l2
          ∧ ∀ x ∈ l1, infLt (diffOr activityDate w) (diffOr activityDate x) = true)
      ∧ diffOr activityDate w ≠ none := by
  obtain ⟨v, hvmem, hvfin⟩ := List.any_eq_true.mp hvalid
  have hvd : ∃ n, diffOr activityDate v = some n := by
    unfold finiteDiff at hvfin
    unfold diffOr
    cases hgd : get_date_diff activityDate v with
    | ok k =>
      cases k with
      | none => rw [hgd] at hvfin; simp at hvfin
      | some n => exact ⟨n, rfl⟩
    | error e => rw [hgd] at hvfin; simp at hvfin
  have hWne : _filter_available_planned_workouts windowResults ≠ [] := by
    intro hh
    rw [hh] at hvmem
    cases hvmem
  have hm : ∃ m, pyMinBy (diffOr activityDate)
      (_filter_available_planned_workouts windowResults) = some m := by
    cases hc : _filter_available_planned_workouts windowResults with
    | nil => exact absurd hc hWne
    | cons a as => exact ⟨as.foldl (pyMinStep (diffOr activityDate)) a, rfl⟩
  obtain ⟨m, hmv⟩ := hm
  have hres : find_planned_core exactResults windowResults activityDate
      = .ok (some m) := by
    unfold find_planned_core
    rw [hE]
    rw [if_pos (show (([] : List Page).isEmpty = true) from rfl)]
    rw [if_neg (by simp [hWne]), if_pos hok, hmv]
  refine ⟨m, hres, pyMinBy_mem hmv, pyMinBy_not_lt hmv, pyMinBy_first hmv, ?_⟩
  intro hnone
  obtain ⟨n, hvn⟩ := hvd
  have hlt := pyMinBy_not_lt hmv v hvmem
  rw [hnone, hvn] at hlt
  simp [infLt] at hlt

/-- Concrete tie-break scenario: activity day 2024-06-10. -/
def adJun10 : ℤ := daysFromCivil 2024 6 10

/-- Unconsumed candidate at day difference 2. -/
def pDiff2 : Page :=
  ⟨61, [("Sport relation", PropValue.select (some "Run")),
        ("Date", PropValue.date "2024-06-12")]⟩

/-- Unconsumed candidate at day difference 1. -/
def pDiff1 : Page :=
  ⟨62, [("Sport relation", PropValue.select (some "Run")),
        ("Date", PropValue.date "2024-06-11")]⟩

/-- Unconsumed candidate at day difference 3. -/
def pDiff3 : Page :=
  ⟨63, [("Sport relation", PropValue.select (some "Run")),
        ("Date", PropValue.date "2024-06-13")]⟩

/-- Witness for C4: with candidates at day differences {2, 1, 3} the matcher
selects the one at distance 1. -/
theorem matcher_selects_closest_witness :
    (∃ w, find_planned_core [] [pDiff2, pDiff1, pDiff3] adJun10 = .ok (some w)
      ∧ w ∈ _filter_available_planned_workouts [pDiff2, pDiff1, pDiff3]
      ∧ (∀ x ∈ _filter_available_planned_workouts [pDiff2, pDiff1, pDiff3],
          infLt (diffOr adJun10 x) (diffOr adJun10 w) = false)
      ∧ (∃ l1 l2, _filter_available_planned_workouts [pDiff2, pDiff1, pDiff3]
            = l1 ++ w :: l2
          ∧ ∀ x ∈ l1, infLt (diffOr adJun10 w) (diffOr adJun10 x) = true)
      ∧ diffOr adJun10 w ≠ none)
    ∧ find_planned_core [] [pDiff2, pDiff1, pDiff3] adJun10 = .ok (some pDiff1) :=
  ⟨matcher_selects_closest [] [pDiff2, pDiff1, pDiff3] adJun10 rfl (by decide)
    (by decide), by decide⟩

/-- An unconsumed planned workout with no date property. -/
def noDatePage : Page := ⟨51, [("Sport relation", PropValue.select (some "Run"))]⟩

/-- Counterexample for C5: when the only remaining unconsumed window
candidate has no date, the matcher does NOT return none — it selects that
dateless candidate (Python's `min` over all-infinite keys returns the first
element). -/
theorem matcher_dateless_counterexample :
    find_planned_core [] [noDatePage] 0 = .ok (some noDatePage)
    ∧ (Except.ok (some noDatePage) : Except Unit (Option Page)) ≠ .ok none := by
  constructor
  · decide
  · intro h
    injection h with h1
    cases h1

/-- C5 amended: when every remaining unconsumed window candidate has a
missing/empty planned date (all day-difference comparisons degrade to
infinity), the matcher returns the FIRST such candidate — in particular
`none` exactly when no unconsumed candidate remains; a dateless planned
workout CAN be selected. -/
theorem matcher_all_dateless_returns_first (windowResults : List Page)
    (activityDate : ℤ)
    (h : ∀ w ∈ _filter_available_planned_workouts windowResults, dateStartStr w = "") :
    find_planned_core [] windowResults activityDate =
      .ok ((_filter_available_planned_workouts windowResults).head?) := by
  unfold find_planned_core
  rw [if_pos (show (_filter_available_planned_workouts ([] : List Page)).isEmpty = true from rfl)]
  by_cases hW : (_filter_available_planned_workouts windowResults).isEmpty = true
  · rw [if_pos hW]
    cases hc : _filter_available_planned_workouts windowResults with
    | nil => rfl
    | cons a as =>
      rw [hc] at hW
      simp [List.isEmpty] at hW
  · rw [if_neg hW]
    have hallok : (_filter_available_planned_workouts windowResults).all
        (fun w => diffOk activityDate w) = true := by
      rw [List.all_eq_true]
      intro w hw
      have hd := h w hw
      simp [diffOk, get_date_diff, hd]
    rw [if_pos hallok]
    congr 1
    apply pyMinBy_all_none
    intro y hy
    have hd := h y hy
    simp [diffOr, get_date_diff, hd]

/-- Witness for the amended C5: a one-element dateless candidate set yields
its first (and only) element. -/
theorem matcher_all_dateless_witness :
    find_planned_core [] [noDatePage] 5 =
      .ok ((_filter_available_planned_workouts [noDatePage]).head?) :=
  matcher_all_dateless_returns_first [noDatePage] 5 (by decide)

theorem map_applyPatch_twice (l : List Page) (pid : ℕ) (a b : Props) :
    (l.map (fun p => applyPatch p pid a)).map (fun p => applyPatch p pid b)
      = l.map (fun p => if p.id = pid then
          { p with props := buildProps (buildProps p.props a) b } else p) := by
  induction l with
  | nil => rfl
  | cons x xs ih =>
    simp only [List.map_cons, ih]
    congr 1
    obtain ⟨i, ps⟩ := x
    by_cases h : i = pid
    · simp [applyPatch, h]
    · simp [applyPatch, h]

/-- An unconsumed planned workout page for the link scenario. -/
def plannedPage20 : Page :=
  ⟨20, [("Sport relation", PropValue.select (some "Run")),
        ("Date", PropValue.date "2024-05-01"),
        ("Training Log Entries", PropValue.relation [])]⟩

/-- A created destination activity page for the link scenario. -/
def activityPage10 : Page := ⟨10, [("Strava ID", PropValue.number (.num 42))]⟩

/-- The store before linking in the scenario. -/
def stLink : Store := ⟨[activityPage10], [plannedPage20], none, [], []⟩

/-- Counterexample for C1: linking performs exactly two writes, both on the
planned page — the claimed write (2), appending the planned reference to the
activity record's linked-planned relation, never happens: the activity page
is unchanged and no issued write touches "Linked Planned Workout". -/
theorem link_block_counterexample :
    (sync_link_block stLink 10 20).log
      = [Op.update 20 (link_activity_to_planned_props 10),
         Op.update 20 mark_planned_as_done_props]
    ∧ (sync_link_block stLink 10 20).activities = [activityPage10]
    ∧ ((sync_link_block stLink 10 20).log.all (fun op =>
        match op with
        | Op.update _ props => props.lookup "Linked Planned Workout" == none
        | _ => true)) = true := by decide

/-- C1 amended: for every link of an activity record to a planned record the
sync flow performs, in order, (1) the write of the activity reference into
the planned record's linked-entries relation and then (2) the write setting
the planned record's status to "Done"; both writes target only the planned
page, and neither payload contains the activity-side "Linked Planned
Workout" relation (the code's `link_planned_to_activity` is never called by
the flow). -/
theorem link_block_writes (st : Store) (createdPageId plannedPageId : ℕ) :
    (sync_link_block st createdPageId plannedPageId).log
      = st.log ++ [Op.update plannedPageId (link_activity_to_planned_props createdPageId),
                   Op.update plannedPageId mark_planned_as_done_props]
    ∧ (sync_link_block st createdPageId plannedPageId).planned
      = st.planned.map (fun p =>
          if p.id = plannedPageId then
            { p with props := (buildProps
                (buildProps p.props (link_activity_to_planned_props createdPageId))
                mark_planned_as_done_props) }
          else p)
    ∧ (link_activity_to_planned_props createdPageId).lookup "Linked Planned Workout" = none
    ∧ (mark_planned_as_done_props).lookup "Linked Planned Workout" = none := by
  refine ⟨?_, ?_, rfl, rfl⟩
  · simp [sync_link_block, update_page, List.append_assoc]
  · exact map_applyPatch_twice st.planned plannedPageId _ _

/-- Config distinguishing Ride-keyed from Bike-keyed tables and icons. -/
def cfg2 : Config :=
  ⟨[], [("bike_fields", [("distance", "Bike Distance")]),
        ("ride_fields", [("distance", "Ride Distance")])],
   [("Ride", "R"), ("Bike", "B")], 1000, 60, true⟩

/-- A Ride activity. -/
def actRide : Activity :=
  [("sport_type", PyVal.str "Ride"), ("id", PyVal.num 7),
   ("distance", PyVal.num 5000), ("moving_time", PyVal.num 3600),
   ("start_date", PyVal.str "2024-05-01T08:00:00Z")]

/-- A planned workout whose sport select is the source label "Ride". -/
def plannedRidePage : Page :=
  ⟨31, [("Sport relation", PropValue.select (some "Ride")),
        ("Date", PropValue.date "2024-05-01")]⟩

/-- A planned workout whose sport select is the display label "Bike". -/
def plannedBikePage : Page :=
  ⟨32, [("Sport relation", PropValue.select (some "Bike")),
        ("Date", PropValue.date "2024-05-01")]⟩

/-- Store with both planned pages. -/
def st2 : Store := ⟨[], [plannedRidePage, plannedBikePage], none, [], []⟩

/-- C2: a source "Ride" resolves to display "Bike", and that display
category is what flows into icon selection, sport-field-table lookup, and
the planned-workout matcher's sport argument: on the concrete Ride activity
the translator picks the Bike field table (emitting "Bike Distance", not
"Ride Distance") and the Bike icon, and the matcher selects the planned
workout whose sport select is "Bike", not the one labelled "Ride". -/
theorem ride_maps_to_bike :
    get_notion_sport_type "Ride" = "Bike"
    ∧ (∀ (cfg : Config) (st : Store) (a : Activity),
        (activity_to_properties cfg st a (some "Bike")).2.1
          = (get_sport_icon cfg "Bike").getD "🏃")
    ∧ (∀ (planned : List Page) (a : Activity), effStravaType a = "Ride" →
        per_activity_planned_lookup planned a
          = find_planned_activity planned "Bike" (getStrField (aget a "start_date")) 3)
    ∧ (activity_to_properties cfg2 st2 actRide
          (some (get_notion_sport_type (effStravaType actRide)))).1.lookup "Bike Distance"
        = some (PropValue.number (.num (pyRound ((5000 : ℚ) / 1000) 2)))
    ∧ pyRound ((5000 : ℚ) / 1000) 2 = 5
    ∧ (activity_to_properties cfg2 st2 actRide
          (some (get_notion_sport_type (effStravaType actRide)))).1.lookup "Ride Distance"
        = none
    ∧ (activity_to_properties cfg2 st2 actRide
          (some (get_notion_sport_type (effStravaType actRide)))).2.1 = "B"
    ∧ per_activity_planned_lookup [plannedRidePage, plannedBikePage] actRide
        = .ok (some plannedBikePage) := by
  refine ⟨rfl, ?_, ?_, rfl, ?_, by decide, by decide, by decide⟩
  · intro cfg st a
    rfl
  · intro planned a h
    unfold per_activity_planned_lookup
    rw [h]
    exact rfl
  · have h5 : (5000 : ℚ) / 1000 = 5 := by norm_num
    rw [h5]
    unfold pyRound
    have h500 : (5 : ℚ) * (10 : ℚ) ^ 2 = ((500 : ℤ) : ℚ) := by norm_num
    rw [h500]
    simp only [Int.floor_intCast]
    norm_num

/-- Witness for C2: the matcher call of the Ride activity is exactly a query
for display category "Bike". -/
theorem ride_maps_to_bike_witness :
    per_activity_planned_lookup [plannedRidePage, plannedBikePage] actRide
      = find_planned_activity [plannedRidePage, plannedBikePage] "Bike"
          (getStrField (aget actRide "start_date")) 3 :=
  ride_maps_to_bike.2.2.1 [plannedRidePage, plannedBikePage] actRide (by decide)

theorem process_activity_dry (cfg : Config) (p : Store × Stats) (a : Activity) :
    process_activity cfg true p a = (p.1, { p.2 with skipped := p.2.skipped + 1 }) := rfl

theorem sync_foldl_dry (cfg : Config) (acts : List Activity) :
    ∀ (st : Store) (s : Stats),
      acts.foldl (process_activity cfg true) (st, s)
        = (st, { s with skipped := s.skipped + acts.length }) := by
  induction acts with
  | nil =>
    intro st s
    rw [List.foldl_nil, List.length_nil, Nat.add_zero]
  | cons a as ih =>
    intro st s
    obtain ⟨c, u, k, e⟩ := s
    rw [List.foldl_cons, process_activity_dry, ih]
    simp [List.length_cons, Prod.mk.injEq, Stats.mk.injEq]
    omega

/-- C7: with the dry-run flag, the orchestrator issues no Notion call at all
(the store, its log included, is returned unchanged) and every candidate
activity is counted as skipped. -/
theorem dry_run_no_calls (cfg : Config) (acts : List Activity) (st : Store) :
    sync_activities cfg true acts st
      = (st, { created := 0, updated := 0, skipped := acts.length, errors := 0 }) := by
  unfold sync_activities
  rw [sync_foldl_dry]
  congr 1
  simp

theorem process_activity_updated (cfg : Config) (dryRun : Bool)
    (p : Store × Stats) (a : Activity) :
    (process_activity cfg dryRun p a).2.updated = p.2.updated := by
  unfold process_activity
  split
  · rfl
  · dsimp only
    split <;> rfl

/-- C10: the orchestrator's statistics have exactly the four counters of the
`Stats` structure, and the "updated" counter is 0 on every run — no path of
the sync flow increments it. -/
theorem sync_stats_updated_zero (cfg : Config) (dryRun : Bool)
    (acts : List Activity) (st : Store) :
    (sync_activities cfg dryRun acts st).2.updated = 0 := by
  unfold sync_activities
  have aux : ∀ (l : List Activity) (p : Store × Stats),
      (l.foldl (process_activity cfg dryRun) p).2.updated = p.2.updated := by
    intro l
    induction l with
    | nil => intro p; rfl
    | cons a as ih =>
      intro p
      rw [List.foldl_cons, ih, process_activity_updated]
  exact aux acts _

/-- Config whose common table maps the Strava id to "Strava ID". -/
def cfg6 : Config := ⟨[("id", "Strava ID"), ("name", "Name")], [], [], 1000, 60, true⟩

/-- A well-formed Run activity with id 42. -/
def act42 : Activity :=
  [("id", PyVal.num 42), ("sport_type", PyVal.str "Run"),
   ("name", PyVal.str "Morning Run"), ("distance", PyVal.num 5000),
   ("moving_time", PyVal.num 1500), ("start_date", PyVal.str "2024-05-01T08:00:00Z")]

/-- An initially empty destination. -/
def st6 : Store := ⟨[], [], none, [], []⟩

/-- C6 (code bug): running the orchestrator twice on the same one-activity
batch does give zero creations on the second run, but NOT because of the
Duplicate Guard: `sync_activities` passes the `(properties, icon)` tuple
returned by `activity_to_properties` to `create_page`, which fails before
creating anything, so BOTH runs count the activity as an error — the second
run has `skipped = 0`, not `skipped = 1` as the claim (and the spec's
idempotence property) requires. -/
theorem sync_double_run_errors :
    (sync_activities cfg6 false [act42] st6).2
        = { created := 0, updated := 0, skipped := 0, errors := 1 }
    ∧ (sync_activities cfg6 false [act42]
        (sync_activities cfg6 false [act42] st6).1).2
        = { created := 0, updated := 0, skipped := 0, errors := 1 }
    ∧ (sync_activities cfg6 false [act42] st6).1.activities = [] := by
  refine ⟨by decide, by decide, by decide⟩

theorem pyInt_intCast (z : ℤ) : pyInt (z : ℚ) = z := by
  unfold pyInt
  by_cases h : (z : ℚ) < 0
  · rw [if_pos h, ← Int.cast_neg, Int.floor_intCast, neg_neg]
  · rw [if_neg h, Int.floor_intCast]

theorem formatPace_five : formatPace 5 = "5:00" := by
  have h5 : ((5 : ℚ)) = ((5 : ℤ) : ℚ) := by norm_num
  unfold formatPace
  rw [h5]
  simp only [pyInt_intCast]
  have h0 : (((5 : ℤ) : ℚ) - ((5 : ℤ) : ℚ)) * 60 = ((0 : ℤ) : ℚ) := by norm_num
  rw [h0]
  simp only [pyInt_intCast]
  decide

/-- C8: with the run table mapping the textual pace field and the pace
suffix disabled, a running activity with distance 5000 m and moving time
1500 s yields exactly the pace text "5:00"; with distance 0 no pace field is
emitted at all (the truthiness guard of the source). -/
theorem pace_text_props (cfg : Config)
    (hrun : get_sport_fields cfg "Run" = [("pace_text", "Pace")])
    (hsuffix : cfg.includePaceSuffix = false) :
    (∀ a : Activity, aget a "distance" = some (.num 5000) →
        aget a "moving_time" = some (.num 1500) →
        sport_specific_properties cfg a "Run" "Run"
          = [("Pace", PropValue.richText "5:00")])
    ∧ (∀ a : Activity, aget a "distance" = some (.num 0) →
        sport_specific_properties cfg a "Run" "Run" = []) := by
  have hpace : ((1500 : ℚ) / 60) / ((5000 : ℚ) / 1000) = 5 := by norm_num
  constructor
  · intro a hd ht
    simp only [sport_specific_properties, numEmit, hrun, hd, ht, lookup_cons,
      List.lookup_nil]
    norm_num [truthy, truthyV, numOf, hsuffix, hpace, formatPace_five]
    rfl
  · intro a hd
    simp only [sport_specific_properties, numEmit, hrun, hd, lookup_cons,
      List.lookup_nil]
    norm_num [truthy, truthyV]
    exact ⟨rfl, rfl, rfl, rfl, rfl, rfl, rfl, rfl⟩

/-- Config mapping only the textual run pace, suffix disabled. -/
def cfg8 : Config := ⟨[], [("run_fields", [("pace_text", "Pace")])], [], 1000, 60, false⟩

/-- A run of 5000 m in 1500 s. -/
def act8 : Activity := [("distance", PyVal.num 5000), ("moving_time", PyVal.num 1500)]

/-- Witness for C8: the concrete 5000 m / 1500 s run yields pace text "5:00". -/
theorem pace_text_props_witness :
    sport_specific_properties cfg8 act8 "Run" "Run"
      = [("Pace", PropValue.richText "5:00")] :=
  (pace_text_props cfg8 rfl rfl).1 act8 rfl rfl

/-- Config mapping only the activity name to the "Name" title field. -/
def cfg9 : Config := ⟨[("name", "Name")], [], [], 1000, 60, true⟩

/-- An empty store for the title scenarios. -/
def st9 : Store := ⟨[], [], none, [], []⟩

/-- An activity whose name is present but empty. -/
def actEmptyName : Activity := [("name", PyVal.str "")]

/-- Counterexample for C9: an activity with an empty (but present) name gets
an empty title, NOT the "Untitled Activity" placeholder — `dict.get` only
falls back on a missing key, not on an empty value. -/
theorem title_empty_name_counterexample :
    (activity_to_properties cfg9 st9 actEmptyName none).1.lookup "Name"
      = some (PropValue.title (PyVal.str ""))
    ∧ PropValue.title (PyVal.str "")
        ≠ PropValue.title (PyVal.str "Untitled Activity") := by
  refine ⟨by decide, by decide⟩

/-- C9 amended: with the name field mapped in the config, the title is
always set from the activity's name value, falling back to the placeholder
"Untitled Activity" only when the name key is absent; an empty name is used
verbatim. -/
theorem title_from_name_or_placeholder (a : Activity) (st : Store) :
    (activity_to_properties cfg9 st a none).1.lookup "Name"
      = some (PropValue.title ((aget a "name").getD (PyVal.str "Untitled Activity"))) := by
  have hsport : sport_specific_properties cfg9 a (effStravaType a) (effStravaType a) = [] := by
    unfold sport_specific_properties numEmit
    simp [get_sport_fields, cfg9]
  have hsimple : simpleFieldInstrs cfg9 a = [] := rfl
  have h1 : List.lookup "name" (get_common_fields cfg9) = some "Name" := rfl
  have h2 : List.lookup "start_date" (get_common_fields cfg9) = none := rfl
  have h3 : List.lookup "id" (get_common_fields cfg9) = none := rfl
  have h4 : List.lookup "sport_type_relation" (get_common_fields cfg9) = none := rfl
  have h5 : List.lookup "sport_type_select" (get_common_fields cfg9) = none := rfl
  dsimp only [activity_to_properties]
  rw [hsimple, hsport, h1, h2, h3, h4, h5]
  rfl
